import Mathlib

/-!
Verification development for the stdlib fallback frontmatter parser in
`scripts/validate_skill.py` (functions `_parse_scalar`,
`_collect_block_scalar`, `_parse_frontmatter_stdlib`).

The Python code is shallowly embedded: Python strings are Lean strings,
`str.strip`'s whitespace class and the regex class `\d` follow CPython's
Unicode tables (`str.isspace` and category Nd, reproduced below as
code-point ranges), `str.lower` is modelled on the ASCII range the
compared keywords live in, Python exceptions are
modelled by `Option` / `Except`, and the two index-driven `while` loops
are written with an explicit step budget ("fuel"); budget exhaustion is
the `none` result, and it is proved unreachable for the budget the entry
point supplies, which is the forward-progress/termination argument of
the source.
-/

namespace ValidateSkill

/-- The code-point ranges of the characters `str.isspace()` accepts, which
is exactly the class `str.strip()` removes and the regex class `\s` matches
on `str` patterns (CPython 3.11 Unicode tables): ASCII `\t\n\v\f\r`, the
information separators 0x1C-0x1F, space, NEL, NBSP, and the Unicode
Zs/Zl/Zp characters. -/
def pySpaceRanges : List (Nat × Nat) :=
  [(9, 13), (28, 32), (133, 133), (160, 160), (5760, 5760), (8192, 8202),
    (8232, 8233), (8239, 8239), (8287, 8287), (12288, 12288)]

/-- Characters treated as whitespace by Python `str.strip()`. -/
def isPySpace (c : Char) : Bool :=
  pySpaceRanges.any (fun r => r.1 ≤ c.toNat && c.toNat ≤ r.2)

/-- `str.strip()` on a character list: drop whitespace from both ends. -/
def pyStripList (l : List Char) : List Char :=
  ((l.dropWhile isPySpace).reverse.dropWhile isPySpace).reverse

/-- `str.strip()`. -/
def pyStrip (s : String) : String :=
  String.mk (pyStripList s.data)

/-- `str.rstrip()`: drop trailing whitespace. -/
def pyRstrip (s : String) : String :=
  String.mk (s.data.reverse.dropWhile isPySpace).reverse

/-- `str.lower()` (ASCII). -/
def pyLower (l : List Char) : List Char :=
  l.map Char.toLower

/-- `len(line) - len(line.lstrip(" "))`: number of leading space characters. -/
def countLeadingSpaces (s : String) : Nat :=
  (s.data.takeWhile (fun c => c = ' ')).length

/-- `str.startswith(pre)`. -/
def pyStartsWith (s pre : String) : Bool :=
  pre.data.isPrefixOf s.data

/-- The Python slice `s[n:]` (character positions). -/
def pyDrop (s : String) (n : Nat) : String :=
  String.mk (s.data.drop n)

/-- `sep.join(parts)`. -/
def pyJoin (sep : String) : List String → String
  | [] => ""
  | [x] => x
  | x :: xs => x ++ sep ++ pyJoin sep xs

/-- Split a character list at every newline character. -/
def splitNl : List Char → List (List Char)
  | [] => [[]]
  | c :: rest =>
    if c = '\n' then [] :: splitNl rest
    else
      match splitNl rest with
      | [] => [[c]]
      | h :: t => (c :: h) :: t

/-- `str.splitlines()` restricted to `"\n"` separators: unlike a plain
split, a trailing newline does not produce a final empty entry and the
empty string yields no lines. -/
def pySplitlines (s : String) : List String :=
  let parts := (splitNl s.data).map String.mk
  match parts.getLast? with
  | some last => if last = "" then parts.dropLast else parts
  | none => parts

/-- The double-quote character. -/
def dq : Char := Char.ofNat 34

/-- The single-quote character. -/
def sq : Char := Char.ofNat 39

/-- The test on line 42 of the source: the (stripped) token both starts and
ends with `"` or both starts and ends with a single quote.  On a one-character
token the same character is both the first and the last one, exactly as with
Python `startswith`/`endswith`. -/
def isQuoted (l : List Char) : Bool :=
  match l.head?, l.getLast? with
  | some a, some b => (a = dq && b = dq) || (a = sq && b = sq)
  | _, _ => false

/-- The code-point ranges of the Unicode decimal-digit category Nd
(CPython 3.11 Unicode tables): this is exactly what the regex class `\d`
matches on `str` patterns.  Each range is a run of digits whose decimal
value is the offset from the range start modulo ten. -/
def ndRanges : List (Nat × Nat) :=
  [(48, 57), (1632, 1641), (1776, 1785), (1984, 1993), (2406, 2415),
    (2534, 2543), (2662, 2671), (2790, 2799), (2918, 2927), (3046, 3055),
    (3174, 3183), (3302, 3311), (3430, 3439), (3558, 3567), (3664, 3673),
    (3792, 3801), (3872, 3881), (4160, 4169), (4240, 4249), (6112, 6121),
    (6160, 6169), (6470, 6479), (6608, 6617), (6784, 6793), (6800, 6809),
    (6992, 7001), (7088, 7097), (7232, 7241), (7248, 7257), (42528, 42537),
    (43216, 43225), (43264, 43273), (43472, 43481), (43504, 43513),
    (43600, 43609), (44016, 44025), (65296, 65305), (66720, 66729),
    (68912, 68921), (69734, 69743), (69872, 69881), (69942, 69951),
    (70096, 70105), (70384, 70393), (70736, 70745), (70864, 70873),
    (71248, 71257), (71360, 71369), (71472, 71481), (71904, 71913),
    (72016, 72025), (72784, 72793), (73040, 73049), (73120, 73129),
    (92768, 92777), (92864, 92873), (93008, 93017), (120782, 120831),
    (123200, 123209), (123632, 123641), (125264, 125273), (130032, 130041)]

/-- The regex class `\d` on Python `str` patterns: any Unicode decimal
digit (category Nd), not only ASCII `[0-9]`. -/
def pyIsDigit (c : Char) : Bool :=
  ndRanges.any (fun r => r.1 ≤ c.toNat && c.toNat ≤ r.2)

/-- The decimal value of a digit character, as `int()`/`float()` read it:
its offset within its Nd run, modulo ten. -/
def pyDigitVal (c : Char) : Nat :=
  match ndRanges.find? (fun r => r.1 ≤ c.toNat && c.toNat ≤ r.2) with
  | some r => (c.toNat - r.1) % 10
  | none => 0

/-- `l ≠ [] && all digits`: the body of the `-?\d+` regex. -/
def isDigitList (l : List Char) : Bool :=
  (decide (l ≠ [])) && l.all pyIsDigit

/-- `re.fullmatch(r"-?\d+", value)`. -/
def isIntToken (l : List Char) : Bool :=
  match l with
  | '-' :: rest => isDigitList rest
  | _ => isDigitList l

/-- `\d+\.\d+` as a full match. -/
def isFloatBody (l : List Char) : Bool :=
  let ip := l.takeWhile pyIsDigit
  match l.dropWhile pyIsDigit with
  | '.' :: frac => (decide (ip ≠ [])) && isDigitList frac
  | _ => false

/-- `re.fullmatch(r"-?\d+\.\d+", value)`. -/
def isFloatToken (l : List Char) : Bool :=
  match l with
  | '-' :: rest => isFloatBody rest
  | _ => isFloatBody l

/-- Value of a digit string, reading each character's decimal value. -/
def digitsToNat (l : List Char) : Nat :=
  l.foldl (fun a c => a * 10 + pyDigitVal c) 0

/-- The spec's literal reading of the integer pattern, with ASCII digits
only (`-?[0-9]+`): stated for comparison with the source's `\d`, which
also accepts non-ASCII decimal digits. -/
def isAsciiDigits (l : List Char) : Bool :=
  (decide (l ≠ [])) && l.all Char.isDigit

/-- Full match of `-?[0-9]+` (the spec's ASCII-digit integer pattern). -/
def isAsciiIntToken (l : List Char) : Bool :=
  match l with
  | '-' :: rest => isAsciiDigits rest
  | _ => isAsciiDigits l

/-- `[0-9]+\.[0-9]+` as a full match (ASCII digits). -/
def isAsciiFloatBody (l : List Char) : Bool :=
  let ip := l.takeWhile Char.isDigit
  match l.dropWhile Char.isDigit with
  | '.' :: frac => (decide (ip ≠ [])) && isAsciiDigits frac
  | _ => false

/-- Full match of `-?[0-9]+\.[0-9]+` (the spec's ASCII-digit float
pattern). -/
def isAsciiFloatToken (l : List Char) : Bool :=
  match l with
  | '-' :: rest => isAsciiFloatBody rest
  | _ => isAsciiFloatBody l

/-- Models CPython `int(str)` on whitespace-free tokens: an optional sign
followed by digits converts, anything else raises (`none`).  The caller
always passes a stripped token, so `int()`'s own whitespace stripping is a
no-op and is omitted.  (Restricted to the ASCII digit forms the caller's
regex can produce.) -/
def pyInt? (s : String) : Option Int :=
  match s.data with
  | '-' :: rest => if isDigitList rest then some (-(digitsToNat rest : Int)) else none
  | '+' :: rest => if isDigitList rest then some ((digitsToNat rest : Int)) else none
  | other => if isDigitList other then some ((digitsToNat other : Int)) else none

/-- Splits `\d+\.\d+` into (numerator scaled by the fraction length, fraction
length); `none` models a `float(str)` conversion failure. -/
def floatParts? (m : List Char) : Option (Nat × Nat) :=
  let ip := m.takeWhile pyIsDigit
  match m.dropWhile pyIsDigit with
  | '.' :: frac =>
      if (decide (ip ≠ [])) && isDigitList frac then
        some (digitsToNat ip * 10 ^ frac.length + digitsToNat frac, frac.length)
      else none
  | _ => none

/-- Models CPython `float(str)` on whitespace-free tokens of the form
`-?\d+\.\d+`: the exact decimal value is kept as `num / 10 ^ shift` (IEEE
rounding is not modelled; the payload determines the value
deterministically).  The caller always passes a stripped token, so
`float()`'s own whitespace stripping is a no-op and is omitted. -/
def pyFloat? (s : String) : Option (Int × Nat) :=
  match s.data with
  | '-' :: rest => (floatParts? rest).map (fun p => (-(p.1 : Int), p.2))
  | other => (floatParts? other).map (fun p => ((p.1 : Int), p.2))

/-- ScalarValue: tagged union produced by `_parse_scalar`.  A float carries
the exact decimal `num × 10⁻ˢʰⁱᶠᵗ` it denotes. -/
inductive Scalar where
  | str (s : String)
  | int (n : Int)
  | float (num : Int) (shift : Nat)
  | bool (b : Bool)
  | null
deriving DecidableEq, Repr

/-- `_parse_scalar` (source lines 36-56).  `none` models an uncaught
conversion exception (proved unreachable below). -/
def _parse_scalar (raw : String) : Option Scalar :=
  let value := pyStripList raw.data
  if value = [] then some (.str "")
  else if isQuoted value then some (.str (String.mk ((value.drop 1).dropLast)))
  else
    let low := pyLower value
    if low = "true".data then some (.bool true)
    else if low = "false".data then some (.bool false)
    else if low = "null".data || low = "none".data || low = [Char.ofNat 126] then some .null
    else if isIntToken value then (pyInt? (String.mk value)).map Scalar.int
    else if isFloatToken value then
      (pyFloat? (String.mk value)).map (fun p => Scalar.float p.1 p.2)
    else some (.str (String.mk value))

/-- The line-gathering loop of `_collect_block_scalar` (source lines 64-76),
run on the suffix `lines[start_idx:]`; returns the accumulated block lines
and how many input lines were consumed. -/
def collectLoop (minIndent : Nat) : List String → List String × Nat
  | [] => ([], 0)
  | line :: rest =>
    if pyStrip line = "" then
      let r := collectLoop minIndent rest
      ("" :: r.1, r.2 + 1)
    else if countLeadingSpaces line < minIndent then ([], 0)
    else
      let r := collectLoop minIndent rest
      (pyDrop line minIndent :: r.1, r.2 + 1)

/-- The folded-mode paragraph assembly of `_collect_block_scalar`
(source lines 82-93); `current` is the in-progress paragraph. -/
def foldParas : List String → List String → List String
  | [], current => if current = [] then [] else [pyJoin " " current]
  | l :: rest, current =>
    if l = "" then
      (if current = [] then [""] else [pyJoin " " current, ""]) ++ foldParas rest []
    else
      foldParas rest (current ++ [pyStrip l])

/-- `_collect_block_scalar` (source lines 59-95). -/
def _collect_block_scalar (lines : List String) (start_idx : Nat) (min_indent : Nat)
    (folded : Bool) : String × Nat :=
  let r := collectLoop min_indent (lines.drop start_idx)
  let nextIdx := start_idx + r.2
  if folded then
    (pyRstrip (pyJoin "\n" (foldParas r.1 [])), nextIdx)
  else
    (pyRstrip (pyJoin "\n" r.1), nextIdx)

/-- `[A-Za-z0-9_-]`. -/
def isKeyChar (c : Char) : Bool :=
  c.isAlpha || c.isDigit || c = '_' || c = '-'

/-- `re.match(r"^([A-Za-z0-9_-]+)\s*:\s*(.*)$", line)` followed by
`group(2).strip()`: returns the key and the fully stripped value text.
(The key characters, the whitespace class and `:` are pairwise disjoint, so
the regex engine's backtracking cannot produce any other parse.) -/
def matchKeyValue (l : List Char) : Option (String × String) :=
  let key := l.takeWhile isKeyChar
  if key = [] then none
  else
    match (l.dropWhile isKeyChar).dropWhile isPySpace with
    | ':' :: after => some (String.mk key, pyStrip (String.mk after))
    | _ => none

/-- `raw_value in {"|", ">", "|-", ">-"}`. -/
def isBlockMarker (v : String) : Bool :=
  v = "|" || v = ">" || v = "|-" || v = ">-"

/-- `raw_value.startswith(">")` on a block marker selects folded mode. -/
def markerFolded (v : String) : Bool :=
  pyStartsWith v ">"

/-- The failure messages `_parse_frontmatter_stdlib` can raise, with the
1-based line number each message interpolates. -/
inductive ParseError where
  | invalidTopLevelIndentation (line : Nat)
  | malformedTopLevelEntry (line : Nat)
  | unsupportedListSyntax (line : Nat)
  | invalidNestedIndentation (line : Nat)
  | unsupportedDeepNesting (line : Nat)
  | malformedNestedEntry (line : Nat)
  | uncaughtValueError (line : Nat)
deriving DecidableEq, Repr

/-- A parsed value: a scalar or a one-level nested mapping of scalars.
The payload of `mapping` can only hold scalars, so depth-one nesting holds
by construction, exactly as in the source where `nested_data` only ever
receives `_parse_scalar` results and block-scalar strings. -/
inductive Value where
  | scalar (s : Scalar)
  | mapping (m : List (String × Scalar))
deriving DecidableEq, Repr

abbrev NestedMapping := List (String × Scalar)
abbrev Mapping := List (String × Value)

deriving instance DecidableEq for Except

/-- Python `dict` assignment `d[k] = v` on an insertion-ordered association
list: replace in place when the key exists, append otherwise. -/
def setKey {α : Type} (m : List (String × α)) (k : String) (v : α) : List (String × α) :=
  if m.any (fun p => p.1 = k) then m.map (fun p => if p.1 = k then (k, v) else p)
  else m ++ [(k, v)]

/-- Python `d[k]` as an option. -/
def lookupKey {α : Type} (m : List (String × α)) (k : String) : Option α :=
  (m.find? (fun p => p.1 = k)).map Prod.snd

/-- The look-ahead loop at source lines 151-159, run on `lines[i+1:]`:
counts the contiguous run of lines that are blank, comments, or indented by
at least two spaces. -/
def nestedRun : List String → Nat
  | [] => 0
  | c :: rest =>
    if pyStrip c = "" || pyStartsWith (pyStrip c) "#" then nestedRun rest + 1
    else if !(pyStartsWith c "  ") then 0
    else nestedRun rest + 1

/-- `nl.strip() and not nl.strip().startswith("#")`: a line carrying content. -/
def isContentLine (l : String) : Bool :=
  pyStrip l ≠ "" && !(pyStartsWith (pyStrip l) "#")

/-- The nested-mapping loop at source lines 167-200 (`while k < j`), with an
explicit step budget; `none` models budget exhaustion, proved unreachable
for the budget the caller passes. -/
def nestedLoop (lines : List String) (j : Nat) :
    Nat → Nat → NestedMapping → Option (Except ParseError NestedMapping)
  | 0, _, _ => none
  | fuel + 1, k, nd =>
    if k < j then
      let nested_line := lines.getD k ""
      let ns := pyStrip nested_line
      if ns = "" || pyStartsWith ns "#" then nestedLoop lines j fuel (k + 1) nd
      else if !(pyStartsWith nested_line "  ") then
        some (.error (.invalidNestedIndentation (k + 1)))
      else
        let content := pyDrop nested_line 2
        if pyStartsWith content " " then some (.error (.unsupportedDeepNesting (k + 1)))
        else if pyStartsWith content "- " then
          some (.error (.unsupportedListSyntax (k + 1)))
        else
          match matchKeyValue content.data with
          | none => some (.error (.malformedNestedEntry (k + 1)))
          | some (child_key, child_raw) =>
            if isBlockMarker child_raw then
              let r := _collect_block_scalar lines (k + 1) 4 (markerFolded child_raw)
              nestedLoop lines j fuel r.2 (setKey nd child_key (.str r.1))
            else
              match _parse_scalar child_raw with
              | some s => nestedLoop lines j fuel (k + 1) (setKey nd child_key s)
              | none => some (.error (.uncaughtValueError (k + 1)))
    else some (.ok nd)

/-- The top-level loop of `_parse_frontmatter_stdlib` (source lines 118-205),
with an explicit step budget; `none` models budget exhaustion, proved
unreachable for the budget the entry point supplies. -/
def parseLoop (lines : List String) :
    Nat → Nat → Mapping → Option (Except ParseError Mapping)
  | 0, _, _ => none
  | fuel + 1, i, data =>
    if i < lines.length then
      let line := lines.getD i ""
      let stripped := pyStrip line
      if stripped = "" || pyStartsWith stripped "#" then parseLoop lines fuel (i + 1) data
      else if pyStartsWith line " " then
        some (.error (.invalidTopLevelIndentation (i + 1)))
      else
        match matchKeyValue line.data with
        | none => some (.error (.malformedTopLevelEntry (i + 1)))
        | some (key, raw_value) =>
          if isBlockMarker raw_value then
            let r := _collect_block_scalar lines (i + 1) 2 (markerFolded raw_value)
            parseLoop lines fuel r.2 (setKey data key (.scalar (.str r.1)))
          else if raw_value ≠ "" then
            if pyStartsWith raw_value "- " then
              some (.error (.unsupportedListSyntax (i + 1)))
            else
              match _parse_scalar raw_value with
              | some s => parseLoop lines fuel (i + 1) (setKey data key (.scalar s))
              | none => some (.error (.uncaughtValueError (i + 1)))
          else
            let run := nestedRun (lines.drop (i + 1))
            let j := i + 1 + run
            let nested_lines := (lines.drop (i + 1)).take run
            if !(nested_lines.any isContentLine) then
              parseLoop lines fuel j (setKey data key (.scalar (.str "")))
            else
              match nestedLoop lines j fuel (i + 1) [] with
              | none => none
              | some (.error e) => some (.error e)
              | some (.ok nd) => parseLoop lines fuel j (setKey data key (.mapping nd))
    else some (.ok data)

/-- `_parse_frontmatter_stdlib` (source lines 98-205).  The step budget
`length + 1` is proved sufficient below, so the `none` (budget exhausted)
case never occurs. -/
def _parse_frontmatter_stdlib (raw : String) : Option (Except ParseError Mapping) :=
  let lines := pySplitlines raw
  parseLoop lines (lines.length + 1) 0 []

/-- Nesting depth of a parsed value: scalars are depth 0, nested mappings
depth 1 (their entries are scalars by the type of `Value.mapping`). -/
def valueDepth : Value → Nat
  | .scalar _ => 0
  | .mapping _ => 1

/-- Each key occurs at most once in the list. -/
def distinctKeys : List String → Bool
  | [] => true
  | k :: rest => (!(rest.any (fun x => x == k))) && distinctKeys rest

/-- A value's own keys (if it is a nested mapping) are distinct. -/
def valueKeysOk : Value → Bool
  | .scalar _ => true
  | .mapping nm => distinctKeys (nm.map Prod.fst)

/-- The dictionary invariant: top-level keys are distinct and so are the
keys of every nested mapping. -/
def goodMapping (m : Mapping) : Bool :=
  distinctKeys (m.map Prod.fst) && m.all (fun p => valueKeysOk p.2)

/-! ## Helper lemmas about the scalar coercer -/

theorem isDigitList_head (c : Char) (t : List Char) (h : isDigitList (c :: t) = true) :
    pyIsDigit c = true := by
  simp only [isDigitList, List.all_cons, Bool.and_eq_true] at h
  exact h.2.1

theorem pyInt?_isSome (l : List Char) (h : isIntToken l = true) :
    (pyInt? (String.mk l)).isSome = true := by
  cases l with
  | nil => exact absurd h (by decide)
  | cons c t =>
    by_cases hc : c = '-'
    · subst hc
      have hd : isDigitList t = true := h
      simp only [pyInt?]
      simp [hd]
    · have hd : isDigitList (c :: t) = true := by
        unfold isIntToken at h
        split at h
        · rename_i rest heq
          injection heq with h1 _
          exact absurd h1 hc
        · exact h
      have hcd : pyIsDigit c = true := isDigitList_head c t hd
      have hplus : c ≠ '+' := by
        intro hh
        subst hh
        exact absurd hcd (by decide)
      simp only [pyInt?]
      split
      · rename_i rest heq
        injection heq with h1 _
        exact absurd h1 hc
      · rename_i rest heq
        injection heq with h1 _
        exact absurd h1 hplus
      · simp [hd]

theorem floatParts?_isSome (m : List Char) (h : isFloatBody m = true) :
    (floatParts? m).isSome = true := by
  simp only [isFloatBody] at h
  split at h
  · rename_i frac heq
    simp only [floatParts?]
    rw [heq]
    split
    · rename_i frac2 heq2
      injection heq2 with _ h2
      subst h2
      rw [if_pos h]
      rfl
    · rename_i hne
      exact absurd rfl (hne frac)
  · exact absurd h (by decide)

theorem pyFloat?_isSome (l : List Char) (h : isFloatToken l = true) :
    (pyFloat? (String.mk l)).isSome = true := by
  cases l with
  | nil => exact absurd h (by decide)
  | cons c t =>
    by_cases hc : c = '-'
    · subst hc
      have hb : isFloatBody t = true := h
      obtain ⟨p, hp⟩ := Option.isSome_iff_exists.mp (floatParts?_isSome t hb)
      simp [pyFloat?, hp]
    · have hb : isFloatBody (c :: t) = true := by
        unfold isFloatToken at h
        split at h
        · rename_i rest heq
          injection heq with h1 _
          exact absurd h1 hc
        · exact h
      obtain ⟨p, hp⟩ := Option.isSome_iff_exists.mp (floatParts?_isSome (c :: t) hb)
      simp only [pyFloat?]
      split
      · rename_i rest heq
        injection heq with h1 _
        exact absurd h1 hc
      · rw [hp]
        rfl

theorem isFloatBody_eq_false_of_digits (d : List Char) (h : isDigitList d = true) :
    isFloatBody d = false := by
  have hall : ∀ x ∈ d, pyIsDigit x := by
    simp only [isDigitList, Bool.and_eq_true, List.all_eq_true] at h
    exact fun x hx => h.2 x hx
  have hd : d.dropWhile pyIsDigit = [] := List.dropWhile_eq_nil_iff.mpr hall
  simp only [isFloatBody]
  rw [hd]

theorem isFloatToken_eq_false_of_isIntToken (l : List Char) (h : isIntToken l = true) :
    isFloatToken l = false := by
  unfold isIntToken at h
  split at h
  · rename_i rest
    exact isFloatBody_eq_false_of_digits rest h
  · cases l with
    | nil => decide
    | cons c t =>
      have hcd : pyIsDigit c = true := isDigitList_head c t h
      have hc : c ≠ '-' := by
        intro hh
        subst hh
        exact absurd hcd (by decide)
      unfold isFloatToken
      split
      · rename_i rest heq
        injection heq with h1 _
        exact absurd h1 hc
      · exact isFloatBody_eq_false_of_digits _ h

/-! ## Claims about the scalar coercer -/

/-- Claim C10: `_parse_scalar` on the one-character tokens consisting of a
single double-quote or a single single-quote treats the lone character as a
matching quote pair and returns the empty string. -/
theorem c10_lone_quote :
    _parse_scalar (String.mk [dq]) = some (.str "") ∧
    _parse_scalar (String.mk [sq]) = some (.str "") := by
  decide

/-- Claim C7: `_parse_scalar` is total — it returns a scalar on every input
and never raises; in particular the `int`/`float` conversions behind the
regex guards always succeed. -/
theorem c7_parse_scalar_total (raw : String) : ∃ s, _parse_scalar raw = some s := by
  simp only [_parse_scalar]
  by_cases h1 : pyStripList raw.data = []
  · exact ⟨.str "", by rw [if_pos h1]⟩
  · rw [if_neg h1]
    by_cases h2 : isQuoted (pyStripList raw.data) = true
    · exact ⟨_, by rw [if_pos h2]⟩
    · rw [if_neg h2]
      by_cases h3 : pyLower (pyStripList raw.data) = "true".data
      · exact ⟨_, by rw [if_pos h3]⟩
      · rw [if_neg h3]
        by_cases h4 : pyLower (pyStripList raw.data) = "false".data
        · exact ⟨_, by rw [if_pos h4]⟩
        · rw [if_neg h4]
          by_cases h5 : (decide (pyLower (pyStripList raw.data) = "null".data) ||
              decide (pyLower (pyStripList raw.data) = "none".data) ||
              decide (pyLower (pyStripList raw.data) = [Char.ofNat 126])) = true
          · exact ⟨_, by rw [if_pos h5]⟩
          · rw [if_neg h5]
            by_cases h6 : isIntToken (pyStripList raw.data) = true
            · rw [if_pos h6]
              obtain ⟨n, hn⟩ := Option.isSome_iff_exists.mp
                (pyInt?_isSome (pyStripList raw.data) h6)
              exact ⟨.int n, by rw [hn]; rfl⟩
            · rw [if_neg h6]
              by_cases h7 : isFloatToken (pyStripList raw.data) = true
              · rw [if_pos h7]
                obtain ⟨p, hp⟩ := Option.isSome_iff_exists.mp
                  (pyFloat?_isSome (pyStripList raw.data) h7)
                exact ⟨.float p.1 p.2, by rw [hp]; rfl⟩
              · rw [if_neg h7]
                exact ⟨_, rfl⟩

/-- Counterexample to claim C4: the Arabic-Indic digit three (U+0663)
satisfies every hypothesis of the claim (after trimming it is non-empty,
not quote-wrapped and not a boolean/null word) and fully matches neither
ASCII-digit pattern `-?[0-9]+` nor `-?[0-9]+\.[0-9]+`, yet `_parse_scalar`
returns Integer 3, not a String: the source regexes use `\d`, which on
Python `str` patterns matches any Unicode decimal digit. -/
theorem c4_counterexample :
    pyStripList (String.mk [Char.ofNat 1635]).data ≠ [] ∧
    isQuoted (pyStripList (String.mk [Char.ofNat 1635]).data) = false ∧
    pyLower (pyStripList (String.mk [Char.ofNat 1635]).data) ≠ "true".data ∧
    pyLower (pyStripList (String.mk [Char.ofNat 1635]).data) ≠ "false".data ∧
    pyLower (pyStripList (String.mk [Char.ofNat 1635]).data) ≠ "null".data ∧
    pyLower (pyStripList (String.mk [Char.ofNat 1635]).data) ≠ "none".data ∧
    pyLower (pyStripList (String.mk [Char.ofNat 1635]).data) ≠ [Char.ofNat 126] ∧
    isAsciiIntToken (pyStripList (String.mk [Char.ofNat 1635]).data) = false ∧
    isAsciiFloatToken (pyStripList (String.mk [Char.ofNat 1635]).data) = false ∧
    _parse_scalar (String.mk [Char.ofNat 1635]) = some (.int 3) := by
  decide

/-- Claim C4 as amended: for a trimmed token (Python `str.strip`, whose
whitespace class includes the Unicode spaces) that is non-empty, not
quote-wrapped and not a boolean/null word, `_parse_scalar` yields an
Integer exactly when the token fully matches `-?\d+` and a Float exactly
when it fully matches `-?\d+\.\d+`, where `\d` is the Unicode
decimal-digit class Nd of the source's regexes (a proper superset of the
ASCII `[0-9]` the claim states); any other token yields the trimmed token
itself as a String. -/
theorem c4_parse_scalar_numeric (raw : String)
    (h1 : pyStripList raw.data ≠ [])
    (h2 : isQuoted (pyStripList raw.data) = false)
    (h3 : pyLower (pyStripList raw.data) ≠ "true".data)
    (h4 : pyLower (pyStripList raw.data) ≠ "false".data)
    (h5 : pyLower (pyStripList raw.data) ≠ "null".data)
    (h6 : pyLower (pyStripList raw.data) ≠ "none".data)
    (h7 : pyLower (pyStripList raw.data) ≠ [Char.ofNat 126]) :
    ((∃ n, _parse_scalar raw = some (.int n)) ↔
      isIntToken (pyStripList raw.data) = true) ∧
    ((∃ a b, _parse_scalar raw = some (.float a b)) ↔
      isFloatToken (pyStripList raw.data) = true) ∧
    (isIntToken (pyStripList raw.data) = false →
      isFloatToken (pyStripList raw.data) = false →
      _parse_scalar raw = some (.str (pyStrip raw))) := by
  have key : _parse_scalar raw =
      (if isIntToken (pyStripList raw.data) then
        (pyInt? (String.mk (pyStripList raw.data))).map Scalar.int
      else if isFloatToken (pyStripList raw.data) then
        (pyFloat? (String.mk (pyStripList raw.data))).map (fun p => Scalar.float p.1 p.2)
      else some (.str (String.mk (pyStripList raw.data)))) := by
    simp only [_parse_scalar]
    rw [if_neg h1, if_neg (by simp [h2]), if_neg h3, if_neg h4,
      if_neg (by simp [h5, h6, h7])]
  by_cases hInt : isIntToken (pyStripList raw.data) = true
  · rw [if_pos hInt] at key
    have hFl := isFloatToken_eq_false_of_isIntToken _ hInt
    obtain ⟨n, hn⟩ := Option.isSome_iff_exists.mp (pyInt?_isSome _ hInt)
    rw [hn] at key
    refine ⟨⟨fun _ => hInt, fun _ => ⟨n, key⟩⟩, ⟨?_, ?_⟩, ?_⟩
    · rintro ⟨a, b, hab⟩
      rw [key] at hab
      simp at hab
    · intro hcontra
      exact absurd hcontra (by simp [hFl])
    · intro hcontra _
      exact absurd hInt (by simp [hcontra])
  · rw [if_neg hInt] at key
    by_cases hFl : isFloatToken (pyStripList raw.data) = true
    · rw [if_pos hFl] at key
      obtain ⟨p, hp⟩ := Option.isSome_iff_exists.mp (pyFloat?_isSome _ hFl)
      rw [hp] at key
      refine ⟨⟨?_, fun hcon => absurd hcon hInt⟩, ⟨fun _ => hFl, fun _ => ⟨p.1, p.2, key⟩⟩, ?_⟩
      · rintro ⟨m, hm⟩
        rw [key] at hm
        simp at hm
      · intro _ hcontra
        exact absurd hFl (by simp [hcontra])
    · rw [if_neg hFl] at key
      refine ⟨⟨?_, fun hcon => absurd hcon hInt⟩, ⟨?_, fun hcon => absurd hcon hFl⟩,
        fun _ _ => key⟩
      · rintro ⟨m, hm⟩
        rw [key] at hm
        simp at hm
      · rintro ⟨a, b, hab⟩
        rw [key] at hab
        simp at hab

/-- Witness for C4: on token "a1" (neither integer nor float shaped) the
coercer returns the trimmed token as a String. -/
theorem c4_parse_scalar_numeric_witness :
    _parse_scalar "a1" = some (.str (pyStrip "a1")) :=
  (c4_parse_scalar_numeric "a1" (by decide) (by decide) (by decide) (by decide)
    (by decide) (by decide) (by decide)).2.2 (by decide) (by decide)

/-! ## Claims about the block scalar collector -/

/-- Counterexample to claim C2: on lines `["  a", "  b", "", "  c"]` with
`min_indent = 2` in folded mode the collector does NOT return
`"a b" ++ "\n" ++ "c"`: the blank line also emits an explicit empty
paragraph, so the paragraphs are joined as `"a b\n\nc"`. -/
theorem c2_counterexample :
    _collect_block_scalar ["  a", "  b", "", "  c"] 0 2 true ≠ ("a b\nc", 4) := by
  decide

/-- Claim C2 as amended: folded collection of `["  a", "  b", "", "  c"]`
with `min_indent = 2` yields the paragraphs `"a b"`, an empty paragraph
marker for the blank line, and `"c"`, joined with newlines — the string
`"a b\n\nc"` — with `nextIndex` 4. -/
theorem c2_folded_example :
    _collect_block_scalar ["  a", "  b", "", "  c"] 0 2 true = ("a b\n\nc", 4) := by
  decide

/-- Claim C5: literal-mode collection — a blank line is accumulated as an
empty line and never terminates; a non-blank line below `min_indent`
terminates with nothing consumed; any other line is accumulated with its
first `min_indent` characters removed; the literal result is the
accumulated lines joined by newlines and right-stripped; and on
`["  a", "  b", ""]` with `min_indent = 2` the collected text is `"a\nb"`. -/
theorem c5_literal_mode :
    (∀ (m : Nat) (l : String) (rest : List String), pyStrip l = "" →
      collectLoop m (l :: rest) =
        ("" :: (collectLoop m rest).1, (collectLoop m rest).2 + 1)) ∧
    (∀ (m : Nat) (l : String) (rest : List String), pyStrip l ≠ "" →
      countLeadingSpaces l < m → collectLoop m (l :: rest) = ([], 0)) ∧
    (∀ (m : Nat) (l : String) (rest : List String), pyStrip l ≠ "" →
      ¬ countLeadingSpaces l < m →
      collectLoop m (l :: rest) =
        (pyDrop l m :: (collectLoop m rest).1, (collectLoop m rest).2 + 1)) ∧
    (∀ (lines : List String) (s m : Nat),
      _collect_block_scalar lines s m false =
        (pyRstrip (pyJoin "\n" (collectLoop m (lines.drop s)).1),
          s + (collectLoop m (lines.drop s)).2)) ∧
    _collect_block_scalar ["  a", "  b", ""] 0 2 false = ("a\nb", 3) := by
  refine ⟨?_, ?_, ?_, ?_, by decide⟩
  · intro m l rest h
    simp [collectLoop, h]
  · intro m l rest h h2
    simp [collectLoop, h, h2]
  · intro m l rest h h2
    simp [collectLoop, h, h2]
  · intro lines s m
    rfl

/-- Witness for C5: the three step equations instantiated on concrete
lines. -/
theorem c5_literal_mode_witness :
    collectLoop 2 ["", "  a"] =
      ("" :: (collectLoop 2 ["  a"]).1, (collectLoop 2 ["  a"]).2 + 1) ∧
    collectLoop 2 ["x", "  a"] = ([], 0) ∧
    collectLoop 2 ["  a", "x"] =
      (pyDrop "  a" 2 :: (collectLoop 2 ["x"]).1, (collectLoop 2 ["x"]).2 + 1) :=
  ⟨c5_literal_mode.1 2 "" ["  a"] (by decide),
    c5_literal_mode.2.1 2 "x" ["  a"] (by decide) (by decide),
    c5_literal_mode.2.2.1 2 "  a" ["x"] (by decide) (by decide)⟩

/-! ## Helper lemmas about the parser loops -/

theorem collect_snd_ge (lines : List String) (s m : Nat) (f : Bool) :
    s ≤ (_collect_block_scalar lines s m f).2 := by
  cases f
  · exact Nat.le_add_right s _
  · exact Nat.le_add_right s _

theorem nestedRun_le (l : List String) : nestedRun l ≤ l.length := by
  induction l with
  | nil => simp [nestedRun]
  | cons c t ih =>
    simp only [nestedRun, List.length_cons]
    split
    · exact Nat.succ_le_succ ih
    · split
      · exact Nat.zero_le _
      · exact Nat.succ_le_succ ih

theorem bool_ne_true {b : Bool} (h : b = false) : ¬ b = true := by
  intro hc
  rw [h] at hc
  exact Bool.noConfusion hc

theorem blankCommentCond_false {s : String} (h1 : pyStrip s ≠ "")
    (h2 : pyStartsWith (pyStrip s) "#" = false) :
    (decide (pyStrip s = "") || pyStartsWith (pyStrip s) "#") = false := by
  rw [decide_eq_false h1, h2]
  rfl

theorem nestedLoop_isSome (lines : List String) (j : Nat) :
    ∀ (fuel k : Nat) (nd : NestedMapping), j - k < fuel →
      (nestedLoop lines j fuel k nd).isSome = true := by
  intro fuel
  induction fuel with
  | zero => intro k nd h; omega
  | succ f ih =>
    intro k nd h
    simp only [nestedLoop]
    split
    · rename_i hk
      split
      · exact ih (k + 1) nd (by omega)
      · split
        · rfl
        · split
          · rfl
          · split
            · rfl
            · split
              · rfl
              · rename_i child_key child_raw heq
                split
                · apply ih
                  have := collect_snd_ge lines (k + 1) 4 (markerFolded child_raw)
                  omega
                · split
                  · exact ih (k + 1) _ (by omega)
                  · rfl
    · rfl

theorem parseLoop_isSome (lines : List String) :
    ∀ (fuel i : Nat) (data : Mapping), lines.length - i < fuel →
      (parseLoop lines fuel i data).isSome = true := by
  intro fuel
  induction fuel with
  | zero => intro i data h; omega
  | succ f ih =>
    intro i data h
    simp only [parseLoop]
    split
    · rename_i hi
      split
      · exact ih (i + 1) data (by omega)
      · split
        · rfl
        · split
          · rfl
          · rename_i key raw_value heq
            split
            · apply ih
              have := collect_snd_ge lines (i + 1) 2 (markerFolded raw_value)
              omega
            · split
              · split
                · rfl
                · split
                  · exact ih (i + 1) _ (by omega)
                  · rfl
              · split
                · apply ih
                  omega
                · have hns : (nestedLoop lines (i + 1 + nestedRun (lines.drop (i + 1)))
                      f (i + 1) []).isSome = true := by
                    apply nestedLoop_isSome
                    have hr := nestedRun_le (lines.drop (i + 1))
                    rw [List.length_drop] at hr
                    omega
                  split
                  · rename_i hnone
                    rw [hnone] at hns
                    exact absurd hns (by decide)
                  · rfl
                  · apply ih
                    omega
    · rfl

theorem isBlockMarker_eq_false_of_dash (v : String) (h : pyStartsWith v "- " = true) :
    isBlockMarker v = false := by
  cases hb : isBlockMarker v
  · rfl
  · exfalso
    simp only [isBlockMarker, Bool.or_eq_true, decide_eq_true_eq] at hb
    rcases hb with ((rfl | rfl) | rfl) | rfl <;> exact absurd h (by decide)

/-! ## Claims about loop termination and error reporting -/

/-- Claim C8: the parser makes forward progress and terminates on every
input — the step budget `length + 1` supplied by `_parse_frontmatter_stdlib`
is never exhausted (each loop branch advances the line index by at least
one), and `_collect_block_scalar` returns a next index no smaller than its
start index. -/
theorem c8_termination :
    (∀ raw, (_parse_frontmatter_stdlib raw).isSome = true) ∧
    (∀ (lines : List String) (s m : Nat) (f : Bool),
      s ≤ (_collect_block_scalar lines s m f).2) := by
  constructor
  · intro raw
    exact parseLoop_isSome (pySplitlines raw) ((pySplitlines raw).length + 1) 0 []
      (by omega)
  · exact collect_snd_ge

/-- Claim C6: when the top-level scan reaches a non-blank, non-comment line
that begins with a space, parsing fails with the top-level indentation
failure (the spec's `InvalidNestedIndentation`) reporting that line's
1-based number. -/
theorem c6_top_level_indentation (lines : List String) (fuel i : Nat) (data : Mapping)
    (hi : i < lines.length)
    (hblank : pyStrip (lines.getD i "") ≠ "")
    (hcomment : pyStartsWith (pyStrip (lines.getD i "")) "#" = false)
    (hspace : pyStartsWith (lines.getD i "") " " = true) :
    parseLoop lines (fuel + 1) i data =
      some (.error (.invalidTopLevelIndentation (i + 1))) := by
  simp only [parseLoop]
  rw [if_pos hi, if_neg (bool_ne_true (blankCommentCond_false hblank hcomment)),
    if_pos hspace]

/-- Witness for C6: the single line `"  x"` fails immediately with the
top-level indentation error at line 1. -/
theorem c6_top_level_indentation_witness :
    parseLoop ["  x"] 1 0 [] = some (.error (.invalidTopLevelIndentation 1)) :=
  c6_top_level_indentation ["  x"] 0 0 [] (by decide) (by decide) (by decide) (by decide)

/-- Counterexample to claim C1: the input consisting of the single top-level
line `"- item"` does not raise `UnsupportedListSyntax` — it fails the
`key: value` pattern first and raises the malformed-top-level-entry error. -/
theorem c1_counterexample :
    _parse_frontmatter_stdlib "- item" = some (.error (.malformedTopLevelEntry 1)) ∧
    _parse_frontmatter_stdlib "- item" ≠ some (.error (.unsupportedListSyntax 1)) := by
  decide

/-- Claim C1 as amended: a nested content line whose content after the
two-space indent starts with `"- "` (and not with a further space) raises
`UnsupportedListSyntax` at that line's 1-based number, as does a top-level
`key: value` entry whose value starts with `"- "`; but a bare top-level line
beginning with `"- "` is not treated specially — failing the `key: value`
pattern raises `MalformedTopLevelEntry` instead. -/
theorem c1_list_rejection_amended :
    (∀ (lines : List String) (fuel j k : Nat) (nd : NestedMapping), k < j →
      pyStrip (lines.getD k "") ≠ "" →
      pyStartsWith (pyStrip (lines.getD k "")) "#" = false →
      pyStartsWith (lines.getD k "") "  " = true →
      pyStartsWith (pyDrop (lines.getD k "") 2) " " = false →
      pyStartsWith (pyDrop (lines.getD k "") 2) "- " = true →
      nestedLoop lines j (fuel + 1) k nd =
        some (.error (.unsupportedListSyntax (k + 1)))) ∧
    (∀ (lines : List String) (fuel i : Nat) (data : Mapping) (key v : String),
      i < lines.length →
      pyStrip (lines.getD i "") ≠ "" →
      pyStartsWith (pyStrip (lines.getD i "")) "#" = false →
      pyStartsWith (lines.getD i "") " " = false →
      matchKeyValue (lines.getD i "").data = some (key, v) →
      pyStartsWith v "- " = true →
      parseLoop lines (fuel + 1) i data =
        some (.error (.unsupportedListSyntax (i + 1)))) ∧
    (∀ (lines : List String) (fuel i : Nat) (data : Mapping),
      i < lines.length →
      pyStrip (lines.getD i "") ≠ "" →
      pyStartsWith (pyStrip (lines.getD i "")) "#" = false →
      pyStartsWith (lines.getD i "") " " = false →
      matchKeyValue (lines.getD i "").data = none →
      parseLoop lines (fuel + 1) i data =
        some (.error (.malformedTopLevelEntry (i + 1)))) := by
  refine ⟨?_, ?_, ?_⟩
  · intro lines fuel j k nd hk hblank hcomment hindent hdeep hdash
    simp only [nestedLoop]
    rw [if_pos hk, if_neg (bool_ne_true (blankCommentCond_false hblank hcomment)),
      if_neg (bool_ne_true (by rw [hindent]; rfl)), if_neg (bool_ne_true hdeep),
      if_pos hdash]
  · intro lines fuel i data key v hi hblank hcomment hspace hmatch hdash
    have hmark : isBlockMarker v = false := isBlockMarker_eq_false_of_dash v hdash
    have hne : v ≠ "" := by
      intro hv
      subst hv
      exact absurd hdash (by decide)
    simp only [parseLoop]
    rw [if_pos hi, if_neg (bool_ne_true (blankCommentCond_false hblank hcomment)),
      if_neg (bool_ne_true hspace)]
    split
    · rename_i heq
      rw [hmatch] at heq
      exact Option.noConfusion heq
    · rename_i key2 v2 heq
      rw [hmatch] at heq
      injection heq with heq2
      injection heq2 with hkey hval
      subst hkey
      subst hval
      rw [if_neg (bool_ne_true hmark), if_pos hne, if_pos hdash]
  · intro lines fuel i data hi hblank hcomment hspace hmatch
    simp only [parseLoop]
    rw [if_pos hi, if_neg (bool_ne_true (blankCommentCond_false hblank hcomment)),
      if_neg (bool_ne_true hspace)]
    split
    · rfl
    · rename_i key2 v2 heq
      rw [hmatch] at heq
      exact Option.noConfusion heq

/-- Witness for C1 (amended): the three cases on concrete one-line inputs. -/
theorem c1_list_rejection_amended_witness :
    nestedLoop ["  - x"] 1 1 0 [] = some (.error (.unsupportedListSyntax 1)) ∧
    parseLoop ["k: - a"] 1 0 [] = some (.error (.unsupportedListSyntax 1)) ∧
    parseLoop ["- item"] 1 0 [] = some (.error (.malformedTopLevelEntry 1)) :=
  ⟨c1_list_rejection_amended.1 ["  - x"] 0 1 0 [] (by decide) (by decide) (by decide)
      (by decide) (by decide) (by decide),
    c1_list_rejection_amended.2.1 ["k: - a"] 0 0 [] "k" "- a" (by decide) (by decide)
      (by decide) (by decide) (by decide) (by decide),
    c1_list_rejection_amended.2.2 ["- item"] 0 0 [] (by decide) (by decide) (by decide)
      (by decide) (by decide)⟩

/-- Counterexample to claim C3: the gathered nested run of this input holds
the content line `"    text"` indented four spaces (deeper than the
two-space nested level), yet parsing succeeds, because the line is consumed
as nested block-scalar content — no parse failure is produced. -/
theorem c3_counterexample :
    _parse_frontmatter_stdlib "key:\n  desc: |\n    text" =
      some (.ok [("key", .mapping [("desc", .str "text")])]) ∧
    countLeadingSpaces ((pySplitlines "key:\n  desc: |\n    text").getD 2 "") = 4 ∧
    isContentLine ((pySplitlines "key:\n  desc: |\n    text").getD 2 "") = true ∧
    nestedRun ((pySplitlines "key:\n  desc: |\n    text").drop 1) = 2 := by
  decide

/-- Claim C3 as amended: every mapping the parser returns has nesting depth
at most one (`Value.mapping` holds scalars only, mirroring the source where
`nested_data` only receives scalar values); and a content line that the
nested-mapping loop examines directly whose content after the two-space
indent starts with a further space raises `UnsupportedDeepNesting` at that
line — but deeper-indented lines consumed as nested block-scalar content
are legitimate and do not fail. -/
theorem c3_depth_amended :
    (∀ (raw : String) (r : Mapping), _parse_frontmatter_stdlib raw = some (.ok r) →
      ∀ p ∈ r, valueDepth p.2 ≤ 1) ∧
    (∀ (lines : List String) (fuel j k : Nat) (nd : NestedMapping), k < j →
      pyStrip (lines.getD k "") ≠ "" →
      pyStartsWith (pyStrip (lines.getD k "")) "#" = false →
      pyStartsWith (lines.getD k "") "  " = true →
      pyStartsWith (pyDrop (lines.getD k "") 2) " " = true →
      nestedLoop lines j (fuel + 1) k nd =
        some (.error (.unsupportedDeepNesting (k + 1)))) := by
  constructor
  · intro raw r _ p _
    rcases p with ⟨k, v⟩
    cases v <;> simp [valueDepth]
  · intro lines fuel j k nd hk hblank hcomment hindent hdeep
    simp only [nestedLoop]
    rw [if_pos hk, if_neg (bool_ne_true (blankCommentCond_false hblank hcomment)),
      if_neg (bool_ne_true (by rw [hindent]; rfl)), if_pos hdeep]

/-- Witness for C3 (amended): depth bound on a concrete successful parse and
the deep-nesting rejection on a concrete nested line. -/
theorem c3_depth_amended_witness :
    (∀ p ∈ ([("key", Value.mapping [("desc", Scalar.str "text")])] : Mapping),
      valueDepth p.2 ≤ 1) ∧
    nestedLoop ["    deep: 1"] 1 1 0 [] = some (.error (.unsupportedDeepNesting 1)) :=
  ⟨c3_depth_amended.1 "key:\n  desc: |\n    text" _ (by decide),
    c3_depth_amended.2 ["    deep: 1"] 0 1 0 [] (by decide) (by decide) (by decide)
      (by decide) (by decide)⟩

/-! ## Helper lemmas about dictionary updates -/

theorem keys_setKey {α : Type} (m : List (String × α)) (k : String) (v : α) :
    (setKey m k v).map Prod.fst =
      if m.any (fun p => p.1 = k) then m.map Prod.fst else m.map Prod.fst ++ [k] := by
  by_cases hc : (m.any (fun p => p.1 = k)) = true
  · rw [setKey, if_pos hc, if_pos hc, List.map_map]
    apply List.map_congr_left
    intro p hp
    by_cases hpk : p.1 = k
    · simp only [Function.comp_apply, if_pos hpk]
      exact hpk.symm
    · simp only [Function.comp_apply, if_neg hpk]
  · rw [setKey, if_neg hc, if_neg hc, List.map_append]
    rfl

theorem distinctKeys_concat (l : List String) (k : String) (h : ∀ x ∈ l, x ≠ k) :
    distinctKeys (l ++ [k]) = distinctKeys l := by
  induction l with
  | nil => simp [distinctKeys]
  | cons a t ih =>
    have ha : (k == a) = false :=
      beq_eq_false_iff_ne.mpr (fun hh => (h a (List.mem_cons_self a t)) hh.symm)
    simp only [List.cons_append, distinctKeys, List.any_append, List.any_cons,
      List.any_nil, ha, Bool.or_false, List.append_eq]
    rw [ih (fun x hx => h x (List.mem_cons_of_mem a hx))]

theorem keys_ne_of_not_any {α : Type} (m : List (String × α)) (k : String)
    (h : (m.any (fun p => p.1 = k)) = false) : ∀ x ∈ m.map Prod.fst, x ≠ k := by
  intro x hx hxk
  obtain ⟨p, hp, hfst⟩ := List.mem_map.mp hx
  have hpk : p.1 = k := by
    rw [hfst]
    exact hxk
  have hco : (m.any (fun q => q.1 = k)) = true :=
    List.any_eq_true.mpr ⟨p, hp, decide_eq_true hpk⟩
  rw [h] at hco
  exact Bool.noConfusion hco

theorem distinctKeys_setKey {α : Type} (m : List (String × α)) (k : String) (v : α)
    (h : distinctKeys (m.map Prod.fst) = true) :
    distinctKeys ((setKey m k v).map Prod.fst) = true := by
  rw [keys_setKey]
  by_cases hc : (m.any (fun p => p.1 = k)) = true
  · rw [if_pos hc]
    exact h
  · have hcf : (m.any (fun p => p.1 = k)) = false := by
      cases hx : m.any (fun p => p.1 = k)
      · rfl
      · exact absurd hx hc
    rw [if_neg hc, distinctKeys_concat _ _ (keys_ne_of_not_any m k hcf)]
    exact h

theorem mem_setKey {α : Type} (m : List (String × α)) (k : String) (v : α)
    (p : String × α) (hp : p ∈ setKey m k v) : p ∈ m ∨ p = (k, v) := by
  unfold setKey at hp
  split at hp
  · obtain ⟨q, hq, hfq⟩ := List.mem_map.mp hp
    by_cases hqk : q.1 = k
    · right
      rw [← hfq, if_pos hqk]
    · left
      rw [← hfq, if_neg hqk]
      exact hq
  · rcases List.mem_append.mp hp with h | h
    · exact Or.inl h
    · right
      simpa using h

theorem goodMapping_setKey (m : Mapping) (k : String) (v : Value)
    (hm : goodMapping m = true) (hv : valueKeysOk v = true) :
    goodMapping (setKey m k v) = true := by
  simp only [goodMapping, Bool.and_eq_true] at hm ⊢
  refine ⟨distinctKeys_setKey m k v hm.1, ?_⟩
  rw [List.all_eq_true]
  intro p hp
  rcases mem_setKey m k v p hp with h | h
  · exact List.all_eq_true.mp hm.2 p h
  · rw [h]
    exact hv

theorem find?_append_last {α : Type} (m : List (String × α)) (k : String) (v : α)
    (h : (m.any (fun p => p.1 = k)) = false) :
    List.find? (fun p => p.1 = k) (m ++ [(k, v)]) = some (k, v) := by
  induction m with
  | nil => simp [List.find?]
  | cons c t ih =>
    simp only [List.any_cons, Bool.or_eq_false_iff, decide_eq_false_iff_not] at h
    rw [List.cons_append, List.find?_cons, decide_eq_false h.1]
    exact ih h.2

theorem find?_map_replace {α : Type} (m : List (String × α)) (k : String) (v : α)
    (h : (m.any (fun p => p.1 = k)) = true) :
    List.find? (fun p => p.1 = k)
      (m.map (fun p => if p.1 = k then (k, v) else p)) = some (k, v) := by
  induction m with
  | nil => simp at h
  | cons c t ih =>
    by_cases hc : c.1 = k
    · simp [List.find?_cons, if_pos hc]
    · have hat : (t.any (fun p => p.1 = k)) = true := by
        simp only [List.any_cons, Bool.or_eq_true, decide_eq_true_eq] at h
        rcases h with h | h
        · exact absurd h hc
        · exact h
      rw [List.map_cons, if_neg hc, List.find?_cons, decide_eq_false hc]
      exact ih hat

theorem lookupKey_setKey {α : Type} (m : List (String × α)) (k : String) (v : α) :
    lookupKey (setKey m k v) k = some v := by
  unfold setKey lookupKey
  split
  · rename_i hc
    rw [find?_map_replace m k v hc]
    rfl
  · rename_i hc
    have hcf : (m.any (fun p => p.1 = k)) = false := by
      cases hx : m.any (fun p => p.1 = k)
      · rfl
      · exact absurd hx hc
    rw [find?_append_last m k v hcf]
    rfl

theorem nestedLoop_distinct (lines : List String) (j : Nat) :
    ∀ (fuel k : Nat) (nd r : NestedMapping),
      distinctKeys (nd.map Prod.fst) = true →
      nestedLoop lines j fuel k nd = some (.ok r) →
      distinctKeys (r.map Prod.fst) = true := by
  intro fuel
  induction fuel with
  | zero =>
    intro k nd r _ heq
    simp only [nestedLoop] at heq
    exact Option.noConfusion heq
  | succ f ih =>
    intro k nd r hnd heq
    simp only [nestedLoop] at heq
    split at heq
    · split at heq
      · exact ih (k + 1) nd r hnd heq
      · split at heq
        · simp at heq
        · split at heq
          · simp at heq
          · split at heq
            · simp at heq
            · split at heq
              · simp at heq
              · split at heq
                · exact ih _ _ r (distinctKeys_setKey nd _ _ hnd) heq
                · split at heq
                  · exact ih (k + 1) _ r (distinctKeys_setKey nd _ _ hnd) heq
                  · simp at heq
    · injection heq with h1
      injection h1 with h2
      rw [← h2]
      exact hnd

theorem parseLoop_good (lines : List String) :
    ∀ (fuel i : Nat) (data r : Mapping),
      goodMapping data = true →
      parseLoop lines fuel i data = some (.ok r) →
      goodMapping r = true := by
  intro fuel
  induction fuel with
  | zero =>
    intro i data r _ heq
    simp only [parseLoop] at heq
    exact Option.noConfusion heq
  | succ f ih =>
    intro i data r hdata heq
    simp only [parseLoop] at heq
    split at heq
    · split at heq
      · exact ih (i + 1) data r hdata heq
      · split at heq
        · simp at heq
        · split at heq
          · simp at heq
          · split at heq
            · refine ih _ _ r (goodMapping_setKey data _ _ hdata ?_) heq
              rfl
            · split at heq
              · split at heq
                · simp at heq
                · split at heq
                  · refine ih (i + 1) _ r (goodMapping_setKey data _ _ hdata ?_) heq
                    rfl
                  · simp at heq
              · split at heq
                · refine ih _ _ r (goodMapping_setKey data _ _ hdata ?_) heq
                  rfl
                · split at heq
                  · exact Option.noConfusion heq
                  · simp at heq
                  · rename_i nd hnd2
                    have hndK : distinctKeys (nd.map Prod.fst) = true :=
                      nestedLoop_distinct lines _ f (i + 1) [] nd rfl hnd2
                    refine ih _ _ r (goodMapping_setKey data _ _ hdata ?_) heq
                    exact hndK
    · injection heq with h1
      injection h1 with h2
      rw [← h2]
      exact hdata

/-! ## Claim about duplicate keys -/

/-- Claim C9: duplicate keys (at top level or among one nested block's
children) never make parsing fail — the resulting mapping holds each key
once, and assigning a key that is already present replaces its value (last
occurrence wins), as the two concrete duplicate-key inputs illustrate. -/
theorem c9_duplicate_keys :
    (∀ (raw : String) (r : Mapping),
      _parse_frontmatter_stdlib raw = some (.ok r) → goodMapping r = true) ∧
    (∀ (m : Mapping) (k : String) (v : Value), lookupKey (setKey m k v) k = some v) ∧
    (∀ (m : NestedMapping) (k : String) (v : Scalar),
      lookupKey (setKey m k v) k = some v) ∧
    _parse_frontmatter_stdlib "a: 1\na: 2" = some (.ok [("a", .scalar (.int 2))]) ∧
    _parse_frontmatter_stdlib "k:\n  a: 1\n  a: 2" =
      some (.ok [("k", .mapping [("a", .int 2)])]) := by
  refine ⟨?_, ?_, ?_, by decide, by decide⟩
  · intro raw r h
    exact parseLoop_good (pySplitlines raw) ((pySplitlines raw).length + 1) 0 [] r rfl h
  · intro m k v
    exact lookupKey_setKey m k v
  · intro m k v
    exact lookupKey_setKey m k v

/-- Witness for C9: the invariant evaluated on the duplicate-key parse and
the replace-on-assignment equation on a concrete mapping. -/
theorem c9_duplicate_keys_witness :
    goodMapping [("a", Value.scalar (.int 2))] = true ∧
    lookupKey (setKey ([("a", Value.scalar (.int 1))]) "a" (Value.scalar (.int 2))) "a" =
      some (Value.scalar (.int 2)) :=
  ⟨c9_duplicate_keys.1 "a: 1\na: 2" _ (by decide),
    c9_duplicate_keys.2.1 [("a", Value.scalar (.int 1))] "a" (Value.scalar (.int 2))⟩

end ValidateSkill
